import Mathlib

/-!
Verification of the per-service supervisor of the watchdogd launcher
(`watchdogd_launcher/service_manager.py` and
`watchdogd_launcher/service_definitions.py`) against its specification.

The embedding is shallow: each Python method is translated to a pure Lean
function.  The process table consulted through `psutil` at call time is made
an explicit input (`LiveInv`), mutable supervisor attributes become a
`SupState` record threaded through the step functions, and the results of the
few operating-system calls a step performs (spawn, poll, clock, snapshot)
are supplied through a `MonitorEnv` record.  All strings are modelled as Lean
strings; Python truthiness of the optional values the code tests is modelled
explicitly.
-/

set_option maxRecDepth 20000

/-- Lowercase a string character by character, mirroring `str.lower()` on the
ASCII data the supervisor compares. -/
def lowerStr (s : String) : String := String.mk (s.data.map Char.toLower)

/-- Substring containment, mirroring the Python expression `needle in hay`. -/
def containsSubstr (needle hay : String) : Bool :=
  hay.data.tails.any (fun t => needle.data.isPrefixOf t)

/-- Test whether `pre` is a prefix of `s`, mirroring `s.startswith(pre)`. -/
def startsWithStr (pre s : String) : Bool := pre.data.isPrefixOf s.data

/-- Index of the last occurrence of `c` in `s`, or `-1` if absent, mirroring
`str.rfind`. -/
def rfindChar (c : Char) (s : List Char) : Int :=
  (List.range s.length).foldl (fun acc i => if s.getD i ' ' = c then (i : Int) else acc) (-1)

/-- Characters after the last `/`, mirroring `os.path.basename` on POSIX. -/
def basenameL (s : List Char) : List Char :=
  s.foldl (fun acc c => if c = '/' then [] else acc ++ [c]) []

/-- Characters before the last `/` with trailing separators stripped unless the
head is all separators, mirroring `os.path.dirname` on POSIX. -/
def dirnameL (s : List Char) : List Char :=
  let base := basenameL s
  let head := s.take (s.length - base.length)
  if head ≠ [] ∧ ¬ (head.all (fun c => c = '/')) then
    (head.reverse.dropWhile (fun c => c = '/')).reverse
  else head

/-- Root part of `os.path.splitext`: cut at the last dot provided some non-dot
character of the final path component precedes it. -/
def splitextRootL (p : List Char) : List Char :=
  let sepIdx := rfindChar '/' p
  let dotIdx := rfindChar '.' p
  if sepIdx < dotIdx ∧
      (List.range p.length).any
        (fun i => sepIdx < (i : Int) ∧ (i : Int) < dotIdx ∧ p.getD i ' ' ≠ '.') then
    p.take dotIdx.toNat
  else p

/-- String wrapper for `os.path.dirname`. -/
def dirname (s : String) : String := String.mk (dirnameL s.data)

/-- String wrapper for `os.path.basename`. -/
def basename (s : String) : String := String.mk (basenameL s.data)

/-- String wrapper for `os.path.splitext(...)[0]`. -/
def splitextRoot (s : String) : String := String.mk (splitextRootL s.data)

/-- Final path component without its extension, mirroring `pathlib.Path.stem`. -/
def pathStem (p : String) : String := splitextRoot (basename p)

/-- Characters allowed by the profile-slug character class `[a-z0-9._-]`. -/
def isSlugChar (c : Char) : Bool :=
  decide (('a' ≤ c ∧ c ≤ 'z') ∨ ('0' ≤ c ∧ c ≤ '9') ∨ c = '.' ∨ c = '_' ∨ c = '-')

/-- Replace every maximal run of characters outside `[a-z0-9._-]` with a single
dash, mirroring `re.sub(r'[^a-z0-9._-]+', '-', s)`.  The Boolean records
whether the previous character was part of a replaced run. -/
def slugAux : Bool → List Char → List Char
  | _, [] => []
  | inRun, c :: rest =>
    if isSlugChar c then c :: slugAux false rest
    else if inRun then slugAux true rest
    else '-' :: slugAux true rest

/-- Characters stripped from the slug ends, mirroring `.strip('-_.')`. -/
def isStripChar (c : Char) : Bool := decide (c = '-' ∨ c = '_' ∨ c = '.')

/-- Strip the slug punctuation from both ends, mirroring `str.strip('-_.')`. -/
def stripEndsStr (s : String) : String :=
  String.mk (((s.data.dropWhile isStripChar).reverse.dropWhile isStripChar).reverse)

/-- Python value stored under a configuration key, as far as the supervisor
inspects it: the code only tests identity with `None` and truthiness. -/
inductive PyVal where
  | none
  | bool (b : Bool)
  | int (n : Int)
  | str (s : String)
deriving Repr, DecidableEq

/-- Python truthiness of a configuration value. -/
def PyVal.truthy : PyVal → Bool
  | .none => false
  | .bool b => b
  | .int n => decide (n ≠ 0)
  | .str s => decide (s ≠ "")

/-- Per-process record captured by `_take_process_snapshot` (and, with raw
casing, the live process table): pid is the map key, the record stores name,
image path, command-line tokens, and the parent pid (`None` when psutil could
not report one). -/
structure ProcInfo where
  name : String
  exe : String
  cmdline : List String
  ppid : Option Nat
deriving Repr, DecidableEq

/-- A snapshot as returned by `_take_process_snapshot`: a pid-keyed mapping,
modelled as an association list (Python dicts have unique keys; `lookup`
retrieves the entry). -/
abbrev Snapshot := List (Nat × ProcInfo)

/-- The live process table consulted through psutil at call time
(`psutil.Process`, `children`, `pid_exists`, `cmdline`).  A pid absent from
`procs` stands for `NoSuchProcess`/`AccessDenied`/`ZombieProcess`. -/
structure LiveInv where
  procs : List (Nat × ProcInfo)
deriving Repr, DecidableEq

/-- Lookup of one live process, mirroring `psutil.Process(pid)` plus its
attribute reads; `Option.none` stands for the psutil exceptions. -/
def LiveInv.find (L : LiveInv) (pid : Nat) : Option ProcInfo := L.procs.lookup pid

/-- Liveness of a pid, mirroring `psutil.pid_exists`/`is_running`. -/
def LiveInv.pidExists (L : LiveInv) (pid : Nat) : Bool := (L.find pid).isSome

/-- Direct children of a pid in the live table, mirroring
`proc.children(recursive=False)`. -/
def LiveInv.children (L : LiveInv) (pid : Nat) : List Nat :=
  (L.procs.filter (fun e => decide (e.2.ppid = Option.some pid))).map (fun e => e.1)

/-- Breadth-first frontier expansion used to model
`proc.children(recursive=True)`: each step appends the next generation.  The
fuel bounds the walked depth; callers pass the table size, which bounds the
depth of any process tree. -/
def descLevels (L : LiveInv) : Nat → List Nat → List Nat
  | 0, _ => []
  | n + 1, frontier =>
    let next := (frontier.map (fun p => L.children p)).flatten
    next ++ descLevels L n next

/-- All descendants of a pid, mirroring `proc.children(recursive=True)`. -/
def LiveInv.descendants (L : LiveInv) (pid : Nat) : List Nat :=
  descLevels L L.procs.length [pid]

/-- Recognized `ServiceConfig` options, with the retrieved values the
supervisor reads through `config.get`.  `Option` fields model keys that may be
absent (the `.get` default is applied at each use site, as in the source);
`snapshot_ancestor_depth` and `snapshot_descendant_limit` are kept as parsed
integers, `Option.none` standing for a missing or unparsable entry. -/
structure Config where
  name : Option String
  command : String
  args : List String
  processNames : List String
  enabled : Bool
  autoRestart : Bool
  minUptimeForCrash : Rat
  trackChildProcesses : Bool
  snapshotAncestorDepth : Option Int
  snapshotDescendantLimit : Option Int
  useUniqueProfile : Option PyVal
  profileBaseDir : Option String
deriving Repr, DecidableEq

/-- Python truthiness of the optional `profile_flag` string attribute. -/
def flagTruthy : Option String → Bool
  | Option.none => false
  | Option.some s => decide (s ≠ "")

/-- Python truthiness of the optional parent pid (`None` and `0` are falsy). -/
def parentPidTruthy : Option Nat → Bool
  | Option.none => false
  | Option.some p => decide (p ≠ 0)

/-- Embedding of `ServiceManager._cmdline_contains_profile`. -/
def cmdlineContainsProfile (flag : Option String) (args : List String) : Bool :=
  if flagTruthy flag = false then true
  else if args = [] then false
  else args.any (fun a => containsSubstr (flag.getD "") a)

/-- Embedding of `ServiceManager._snapshot_entry_matches_profile`;
`Option.none` stands for a missing or empty entry dictionary. -/
def snapshotEntryMatchesProfile (flag : Option String) (info : Option ProcInfo) : Bool :=
  if flagTruthy flag = false then true
  else
    match info with
    | Option.none => false
    | Option.some i => cmdlineContainsProfile flag i.cmdline

/-- Embedding of `ServiceManager._psutil_process_matches_profile`, reading the
live command line and lowercasing it. -/
def psutilProcessMatchesProfile (flag : Option String) (live : LiveInv) (pid : Nat) : Bool :=
  if flagTruthy flag = false then true
  else
    match live.find pid with
    | Option.none => false
    | Option.some i => cmdlineContainsProfile flag (i.cmdline.map lowerStr)

/-- Embedding of `ServiceManager._pid_matches_profile`: the snapshot entry is
consulted first, then the live process table. -/
def pidMatchesProfile (flag : Option String) (snap : Option Snapshot) (live : LiveInv)
    (pid : Nat) : Bool :=
  if flagTruthy flag = false then true
  else
    let snapHit :=
      match snap with
      | Option.none => false
      | Option.some s =>
        match s.lookup pid with
        | Option.none => false
        | Option.some i => snapshotEntryMatchesProfile flag (Option.some i)
    if snapHit then true
    else psutilProcessMatchesProfile flag live pid

/-- Embedding of the ancestor walk inside `ServiceManager._has_matching_ancestor`:
`cur` is the current process, the first argument the remaining depth budget
(`depth < depth_limit` allows exactly `depth_limit` iterations). -/
def ancestorLoop (flag : Option String) (live : LiveInv) (parentPid : Option Nat)
    (exactNames : List String) : Nat → Nat → Bool
  | 0, _ => false
  | d + 1, cur =>
    if parentPidTruthy parentPid && (parentPid == Option.some cur) then
      psutilProcessMatchesProfile flag live cur
    else
      match live.find cur with
      | Option.none => false
      | Option.some info =>
        if exactNames.contains (lowerStr info.name) && psutilProcessMatchesProfile flag live cur then
          true
        else
          match info.ppid with
          | Option.none => false
          | Option.some pp => ancestorLoop flag live parentPid exactNames d pp

/-- Embedding of `ServiceManager._has_matching_ancestor`. -/
def hasMatchingAncestor (flag : Option String) (live : LiveInv) (pid : Nat)
    (parentPid : Option Nat) (exactNames : List String) (depthLimit : Nat) : Bool :=
  if depthLimit = 0 then false
  else if (live.find pid).isSome = false then false
  else ancestorLoop flag live parentPid exactNames depthLimit pid

/-- Embedding of `ServiceManager._filter_candidate_processes`: keep a new pid
when any of the eight heuristics holds, after the profile gate on the entry or
its snapshot parent. -/
def filterCandidateProcesses (cfg : Config) (flag : Option String) (live : LiveInv)
    (newPids : List Nat) (snapshotData : Snapshot) (parentPid : Option Nat) : List Nat :=
  if newPids = [] then []
  else
    let exePath := lowerStr cfg.command
    let exeDir := dirname exePath
    let exeName := basename exePath
    let exeToken := splitextRoot exeName
    let configuredNames := cfg.processNames.map lowerStr
    let exactNames := configuredNames.filter (fun n => decide (n ≠ "")) ++
      (if exeName = "" then [] else [exeName])
    let fuzzyTokens := (exactNames.filter (fun n => decide (n ≠ ""))).map splitextRoot ++
      (if exeToken = "" then [] else [exeToken])
    let ancestorDepth := (max 1 (cfg.snapshotAncestorDepth.getD 10)).toNat
    newPids.filter (fun pid =>
      let info := snapshotData.lookup pid
      let name := (info.map (fun i => i.name)).getD ""
      let exe := (info.map (fun i => i.exe)).getD ""
      let cmdline := String.intercalate " " ((info.map (fun i => i.cmdline)).getD [])
      let ppid := info.bind (fun i => i.ppid)
      let parentInfo :=
        match ppid with
        | Option.none => Option.none
        | Option.some p => if p = 0 then Option.none else snapshotData.lookup p
      let profileOk :=
        if flagTruthy flag then
          snapshotEntryMatchesProfile flag info || snapshotEntryMatchesProfile flag parentInfo
        else true
      if profileOk = false then false
      else
        let matchesParent := parentPid.isSome && (ppid == parentPid)
        let matchesNewParent :=
          match ppid with
          | Option.none => false
          | Option.some p => newPids.contains p
        let matchesExact := decide (name ≠ "") && exactNames.contains name
        let matchesToken := fuzzyTokens.any (fun t => decide (t ≠ "") && containsSubstr t name)
        let matchesDir := decide (exeDir ≠ "") && startsWithStr exeDir exe
        let matchesCmd := decide (exeName ≠ "") && containsSubstr exeName cmdline
        let parentName := lowerStr ((parentInfo.map (fun i => i.name)).getD "")
        let parentNameMatch := decide (parentName ≠ "") && exactNames.contains parentName
        let ancestorMatch := hasMatchingAncestor flag live pid parentPid exactNames ancestorDepth
        matchesParent || matchesNewParent || matchesExact || matchesToken ||
          matchesDir || matchesCmd || parentNameMatch || ancestorMatch)

/-- Embedding of the breadth-first while loop inside
`ServiceManager._collect_descendant_pids`.  The `fuel` argument bounds loop
iterations; `collectFuel` below over-approximates the true iteration count
(each iteration pops one queue entry, and entries are pushed on at most
`limit` occasions, at most one batch of live children each), so with that fuel
the function returns exactly the loop's result. -/
def collectLoop (flag : Option String) (live : LiveInv) (snap : Option Snapshot) (limit : Nat) :
    Nat → List Nat → List Nat → List Nat
  | 0, _, collected => collected
  | _ + 1, [], collected => collected
  | fuel + 1, pid :: queue, collected =>
    if limit ≤ collected.length then collected
    else if collected.contains pid then collectLoop flag live snap limit fuel queue collected
    else if pidMatchesProfile flag snap live pid = false then
      collectLoop flag live snap limit fuel queue collected
    else
      let collected2 := collected ++ [pid]
      if limit ≤ collected2.length then collected2
      else
        match live.find pid with
        | Option.none => collectLoop flag live snap limit fuel queue collected2
        | Option.some _ =>
          if psutilProcessMatchesProfile flag live pid = false then
            collectLoop flag live snap limit fuel queue collected2
          else
            let newKids := (live.children pid).filter (fun c =>
              !(collected2.contains c) && psutilProcessMatchesProfile flag live c)
            collectLoop flag live snap limit fuel (queue ++ newKids) collected2

/-- Iteration bound for `collectLoop`; see its doc comment. -/
def collectFuel (live : LiveInv) (roots : List Nat) (limit : Nat) : Nat :=
  roots.length + (limit + 1) * (live.procs.length + 1)

/-- Embedding of `ServiceManager._collect_descendant_pids`: clamp the
configured limit (default 50, floor 1) and run the breadth-first walk from the
root pids. -/
def collectDescendantPids (cfg : Config) (flag : Option String) (live : LiveInv)
    (snap : Option Snapshot) (rootPids : List Nat) : List Nat :=
  if rootPids = [] then []
  else
    let limit := (max 1 (cfg.snapshotDescendantLimit.getD 50)).toNat
    collectLoop flag live snap limit (collectFuel live rootPids limit) rootPids []

/-- Embedding of `ServiceManager._calculate_new_pids` for the dictionary-shaped
`before_snapshot` the monitor always stores: the keys of the after snapshot
that are absent from the before snapshot. -/
def calculateNewPids (before after : Snapshot) : List Nat :=
  let beforeKeys := before.map (fun e => e.1)
  (after.map (fun e => e.1)).filter (fun p => !(beforeKeys.contains p))

/-- Insert into a sorted list of pids. -/
def insertNat (x : Nat) : List Nat → List Nat
  | [] => [x]
  | y :: ys => if x ≤ y then x :: y :: ys else y :: insertNat x ys

/-- Ascending insertion sort, mirroring Python `sorted` on a pid set. -/
def sortNat : List Nat → List Nat
  | [] => []
  | x :: xs => insertNat x (sortNat xs)

/-- Tail of `ServiceManager._build_tracking_pids` after the candidate set is
fixed: descendant expansion, fallback to the candidates when the expansion is
empty, the final live profile filter, and the sort. -/
def finishTracking (cfg : Config) (flag : Option String) (live : LiveInv)
    (afterSnapshot : Snapshot) (candidates : List Nat) : List Nat :=
  let expanded := collectDescendantPids cfg flag live (Option.some afterSnapshot) candidates
  let finalPids := if expanded = [] then candidates else expanded
  sortNat (finalPids.filter (fun p => pidMatchesProfile flag (Option.some afterSnapshot) live p))

/-- Embedding of `ServiceManager._build_tracking_pids`: snapshot diff,
candidate filtering, the profile-first short circuit, then `finishTracking`. -/
def buildTrackingPids (cfg : Config) (flag : Option String) (live : LiveInv)
    (before after : Snapshot) (parentPid : Option Nat) : List Nat :=
  let newPids := calculateNewPids before after
  if newPids = [] then []
  else
    let filteredPids := filterCandidateProcesses cfg flag live newPids after parentPid
    if filteredPids = [] then
      if flagTruthy flag then []
      else finishTracking cfg flag live after newPids
    else finishTracking cfg flag live after filteredPids

/-- Mutable supervisor attributes set in `ServiceManager.__init__` and updated
by the monitoring loop, the capture thread and `stop()`.  `process` keeps only
the direct child's pid (its poll result is an input of each step);
`lastStartTime` is an abstract clock reading. -/
structure SupState where
  process : Option Nat
  shouldRun : Bool
  crashCount : Nat
  lastStartTime : Option Rat
  trackedPids : List Nat
  beforeSnapshot : Snapshot
  profilePath : Option String
  profileFlag : Option String
deriving Repr, DecidableEq

/-- Embedding of `ServiceManager._set_profile_context` (Python tests the
truthiness of the path, so an empty string also clears the context). -/
def setProfileContext (st : SupState) (path : Option String) : SupState :=
  match path with
  | Option.some p =>
    if p = "" then { st with profilePath := Option.none, profileFlag := Option.none }
    else { st with profilePath := Option.some p,
                   profileFlag := Option.some ("--user-data-dir=" ++ lowerStr p) }
  | Option.none => { st with profilePath := Option.none, profileFlag := Option.none }

/-- Embedding of `ServiceManager._take_process_snapshot`: record every live
process with lowercased name, image path and command line. -/
def takeProcessSnapshot (live : LiveInv) : Snapshot :=
  live.procs.map (fun e =>
    (e.1, { name := lowerStr e.2.name, exe := lowerStr e.2.exe,
            cmdline := e.2.cmdline.map lowerStr, ppid := e.2.ppid }))

/-- Embedding of `ServiceManager._is_process_alive`.  Returns the liveness
verdict together with the (possibly pruned) `tracked_pids`, since the method
rewrites that attribute when only descendants remain.  `poll` is the direct
child handle's `poll()` result at this instant (`Option.none` = running). -/
def isProcessAliveFn (st : SupState) (live : LiveInv) (poll : Option Int) : Bool × List Nat :=
  match st.process with
  | Option.some pid => (live.pidExists pid && poll.isNone, st.trackedPids)
  | Option.none =>
    if st.trackedPids = [] then (false, st.trackedPids)
    else
      let alivePids := st.trackedPids.filter (fun p =>
        live.pidExists p && psutilProcessMatchesProfile st.profileFlag live p)
      (decide (alivePids ≠ []), alivePids)

/-- State effect of `ServiceManager._log_crash_event`: the crash counter is
incremented exactly once; the formatted crash record goes to external sinks
and does not touch supervisor state. -/
def logCrashEvent (st : SupState) : SupState := { st with crashCount := st.crashCount + 1 }

/-- Embedding of the exit classifier inside `ServiceManager._monitor_loop`
(lines 107-116): non-zero exit code is always a crash; with
`min_uptime_for_crash == 0` a zero exit is never a crash; otherwise it is a
crash exactly when the uptime reached the threshold. -/
def isCrash (exitCode : Option Int) (minUptimeForCrash uptimeSeconds : Rat) : Bool :=
  if exitCode ≠ Option.none ∧ exitCode ≠ Option.some 0 then true
  else if minUptimeForCrash = 0 then false
  else decide (minUptimeForCrash ≤ uptimeSeconds)

/-- Operating-system inputs of one monitoring-loop iteration: the live process
table, the direct child's `poll()` result, the computed uptime, the current
clock, the value of `tracked_pids` after the one-second wait for the capture
thread, the snapshot taken by an immediate capture, and the outcome of
`strategy.start` (pid of the spawned child, plus the
`_isolated_profile_path` the launcher wrote back into the config). -/
structure MonitorEnv where
  live : LiveInv
  poll : Option Int
  uptime : Rat
  now : Rat
  pendingCapture : List Nat
  immediateSnapshot : Snapshot
  spawnPid : Option Nat
  spawnProfilePath : Option String
deriving Repr

/-- Embedding of the start block of `ServiceManager._monitor_loop`
(lines 157-194): clear the profile context, take the before snapshot when
tracking children, spawn, and on success record the start time and the new
profile context.  Launching the capture thread changes no supervisor state. -/
def startService (cfg : Config) (st : SupState) (env : MonitorEnv) : SupState :=
  let st1 := setProfileContext st Option.none
  let st2 :=
    if cfg.trackChildProcesses then { st1 with beforeSnapshot := takeProcessSnapshot env.live }
    else st1
  match env.spawnPid with
  | Option.some pid =>
    let st3 := { st2 with process := Option.some pid, lastStartTime := Option.some env.now }
    setProfileContext st3 env.spawnProfilePath
  | Option.none => { st2 with process := Option.none }

/-- Embedding of one iteration of the `while self.should_run` body of
`ServiceManager._monitor_loop` (lines 97-196): liveness check, exit
classification, crash handling, normal-exit handoff to tracked descendants,
and the (re)start block. -/
def monitorStep (cfg : Config) (st : SupState) (env : MonitorEnv) : SupState :=
  let pr := isProcessAliveFn st env.live env.poll
  let st1 := { st with trackedPids := pr.2 }
  if pr.1 then st1
  else
    match st1.process, st1.lastStartTime with
    | Option.some pid, Option.some _ =>
      if isCrash env.poll cfg.minUptimeForCrash env.uptime then
        let st2 := logCrashEvent st1
        if cfg.autoRestart = false then { st2 with shouldRun := false }
        else startService cfg st2 env
      else
        if cfg.trackChildProcesses then
          let t1 := if st1.trackedPids = [] then env.pendingCapture else st1.trackedPids
          let t2 :=
            if t1 = [] then
              let np := buildTrackingPids cfg st1.profileFlag env.live st1.beforeSnapshot
                env.immediateSnapshot (Option.some pid)
              if np = [] then t1 else np
            else t1
          if t2 = [] then { st1 with trackedPids := t2, shouldRun := false }
          else { st1 with trackedPids := t2, process := Option.none }
        else { st1 with shouldRun := false }
    | _, _ => startService cfg st1 env

/-- Kill list of the direct-child branch of `ServiceManager._kill_process`
(lines 573-602): every recursive descendant of the direct child, then the
child itself, with no profile filtering; nothing when psutil no longer knows
the pid. -/
def directKillList (st : SupState) (live : LiveInv) : List Nat :=
  match st.process with
  | Option.none => []
  | Option.some pid =>
    match live.find pid with
    | Option.none => []
    | Option.some _ => live.descendants pid ++ [pid]

/-- Kill list of the tracked-pid branch of `ServiceManager._kill_process`
(lines 605-625): each tracked pid is skipped when the profile flag is set and
the pid does not match; otherwise its recursive descendants are killed first,
each skipped under the same profile test, then the pid itself. -/
def trackedKillList (st : SupState) (live : LiveInv) : List Nat :=
  (st.trackedPids.map (fun pid =>
    match live.find pid with
    | Option.none => []
    | Option.some _ =>
      if flagTruthy st.profileFlag &&
          !(psutilProcessMatchesProfile st.profileFlag live pid) then []
      else
        ((live.descendants pid).filter (fun c =>
          !(flagTruthy st.profileFlag &&
            !(psutilProcessMatchesProfile st.profileFlag live c)))) ++ [pid])).flatten

/-- Embedding of `ServiceManager._kill_process`: the updated state (direct
child handle cleared, tracked pids emptied, profile context cleared) together
with the list of pids the method kills. -/
def killProcess (st : SupState) (live : LiveInv) : SupState × List Nat :=
  ({ st with process := Option.none, trackedPids := [],
             profilePath := Option.none, profileFlag := Option.none },
    directKillList st live ++ trackedKillList st live)

/-- Embedding of `ServiceManager.stop`: clear `should_run`, then run the group
terminator. -/
def stopFn (st : SupState) (live : LiveInv) : SupState × List Nat :=
  killProcess { st with shouldRun := false } live

/-- A monitoring iteration classifies the exit as a crash exactly when the
group is not alive, a direct child handle and a start time are present, and
the classifier reports a crash. -/
def crashClassified (cfg : Config) (st : SupState) (env : MonitorEnv) : Bool :=
  !(isProcessAliveFn st env.live env.poll).1 && st.process.isSome &&
    st.lastStartTime.isSome && isCrash env.poll cfg.minUptimeForCrash env.uptime

/-- The profile slug: lowercase the name, replace each maximal run of
characters outside `[a-z0-9._-]` with a single dash, and strip leading and
trailing characters of `-_.` — exactly the `re.sub` plus `.strip` pipeline of
`ExecutableServiceStrategy._build_profile_args`, and also exactly the slug the
specification describes (the two agree on every input; they differ only in the
fallback the source applies afterwards when the result is empty). -/
def safeSlug (name : String) : String := stripEndsStr (String.mk (slugAux false (lowerStr name).data))

/-- Embedding of the `use_unique_profile` defaulting in
`ServiceManager.__init__` (lines 47-49): an absent key is set to `True`, a
present value is left untouched. -/
def initUseUniqueProfile : Option PyVal → Option PyVal
  | Option.none => Option.some (PyVal.bool true)
  | Option.some v => Option.some v

/-- Embedding of `ExecutableServiceStrategy._build_profile_args`.
`homeProfilesDir` stands for the default base
`Path.home() / .watchdogd_launcher / profiles`, and `mkdirOk` for the outcome
of `profile_path.mkdir` (failure returns no arguments).  The
`expanduser().resolve()` of the joined path is modelled as the plain
`base/slug` join, the bases of interest being already absolute. -/
def buildProfileArgs (cfg : Config) (commandPath : String) (existingArgs : List String)
    (homeProfilesDir : String) (mkdirOk : Bool) : List String :=
  let useUnique : Bool :=
    match cfg.useUniqueProfile with
    | Option.none => true
    | Option.some PyVal.none => true
    | Option.some v => v.truthy
  if useUnique = false then []
  else if existingArgs.any (fun a => startsWithStr "--user-data-dir" a) then []
  else
    let baseDir :=
      match cfg.profileBaseDir with
      | Option.some b => if b = "" then homeProfilesDir else b
      | Option.none => homeProfilesDir
    let stem0 := pathStem commandPath
    let profileName :=
      match cfg.name with
      | Option.some n => if n = "" then (if stem0 = "" then "service" else stem0) else n
      | Option.none => if stem0 = "" then "service" else stem0
    let safeName0 := safeSlug profileName
    let safeName := if safeName0 = "" then "service" else safeName0
    if mkdirOk = false then []
    else ["--user-data-dir=" ++ (baseDir ++ "/" ++ safeName)]

/-- A configuration exercising descendant discovery: an executable service
with all snapshot options left at their defaults. -/
def cfgDiscovery : Config :=
  { name := Option.none, command := "/usr/bin/app", args := [], processNames := [],
    enabled := true, autoRestart := true, minUptimeForCrash := 10,
    trackChildProcesses := true, snapshotAncestorDepth := Option.none,
    snapshotDescendantLimit := Option.none, useUniqueProfile := Option.none,
    profileBaseDir := Option.none }

/-- An empty live process table. -/
def liveEmpty : LiveInv := ⟨[]⟩

/-- Live table for the group-terminator example: the direct child (pid 1)
carries the profile flag, its descendant (pid 2) does not. -/
def exLiveKill : LiveInv :=
  ⟨[(1, { name := "app", exe := "/usr/bin/app", cmdline := ["--user-data-dir=/p"],
          ppid := Option.none }),
    (2, { name := "helper", exe := "/usr/bin/helper", cmdline := ["other"],
          ppid := Option.some 1 })]⟩

/-- Supervisor state for the group-terminator example: profile flag set,
direct child handle present, no tracked pids. -/
def exStKill : SupState :=
  { process := Option.some 1, shouldRun := true, crashCount := 0,
    lastStartTime := Option.some 0, trackedPids := [], beforeSnapshot := [],
    profilePath := Option.some "/p", profileFlag := Option.some "--user-data-dir=/p" }

/-- Supervisor state for the tracked-branch kill example: handle absent, one
tracked pid. -/
def exStKillTracked : SupState :=
  { process := Option.none, shouldRun := true, crashCount := 0,
    lastStartTime := Option.some 0, trackedPids := [3], beforeSnapshot := [],
    profilePath := Option.some "/p", profileFlag := Option.some "--user-data-dir=/p" }

/-- Live table for the tracked-branch kill example: tracked pid 3 matches the
profile, its child pid 4 does not. -/
def exLiveKillTracked : LiveInv :=
  ⟨[(3, { name := "app", exe := "/usr/bin/app", cmdline := ["--user-data-dir=/p"],
          ppid := Option.none }),
    (4, { name := "helper", exe := "/usr/bin/helper", cmdline := ["other"],
          ppid := Option.some 3 })]⟩

/-- Live table for the liveness example: the direct child (pid 5) and a
profile-matching tracked process (pid 7). -/
def exLiveAlive : LiveInv :=
  ⟨[(5, { name := "app", exe := "/usr/bin/app", cmdline := ["--user-data-dir=/p"],
          ppid := Option.none }),
    (7, { name := "app", exe := "/usr/bin/app", cmdline := ["--user-data-dir=/p"],
          ppid := Option.some 5 })]⟩

/-- Liveness example state: direct-child handle still set while pid 7 is
already tracked (the capture thread writes `tracked_pids` while the handle is
still in place). -/
def exStAlive : SupState :=
  { process := Option.some 5, shouldRun := true, crashCount := 0,
    lastStartTime := Option.some 0, trackedPids := [7], beforeSnapshot := [],
    profilePath := Option.some "/p", profileFlag := Option.some "--user-data-dir=/p" }

/-- Liveness example state with no handle and no tracked pids. -/
def exStAliveNone : SupState :=
  { process := Option.none, shouldRun := true, crashCount := 0,
    lastStartTime := Option.some 0, trackedPids := [], beforeSnapshot := [],
    profilePath := Option.none, profileFlag := Option.none }

/-- After snapshot for the discovery examples: a single new pid whose parent
is the direct child. -/
def afterDiscovery : Snapshot :=
  [(100, { name := "app", exe := "/usr/bin/app", cmdline := [], ppid := Option.some 1 })]

/-- Live table in which pid 100 has a live child 200. -/
def liveDiscoveryA : LiveInv :=
  ⟨[(100, { name := "app", exe := "/usr/bin/app", cmdline := [], ppid := Option.none }),
    (200, { name := "app", exe := "/usr/bin/app", cmdline := [], ppid := Option.some 100 })]⟩

/-- Live table in which pid 100 has no children. -/
def liveDiscoveryB : LiveInv :=
  ⟨[(100, { name := "app", exe := "/usr/bin/app", cmdline := [], ppid := Option.none })]⟩

/-- A one-process snapshot used as both before and after snapshot (empty diff). -/
def snapOne : Snapshot :=
  [(1, { name := "app", exe := "/usr/bin/app", cmdline := [], ppid := Option.none })]

/-- After snapshot whose only new pid matches a heuristic but not the profile. -/
def afterNoMatch : Snapshot :=
  [(100, { name := "app", exe := "/usr/bin/app", cmdline := ["x"], ppid := Option.some 1 })]

/-- After snapshot whose only new pid matches none of the candidate
heuristics. -/
def afterStray : Snapshot :=
  [(100, { name := "zzz", exe := "/other/z", cmdline := [], ppid := Option.some 999 })]

/-- Configuration whose service name slugs to the empty string. -/
def cfgSlugEmpty : Config :=
  { cfgDiscovery with name := Option.some "!!!", profileBaseDir := Option.some "/b",
                      useUniqueProfile := Option.some (PyVal.bool true) }

/-- Configuration with an ordinary service name for the profile-argument
witness. -/
def cfgProfileW : Config :=
  { cfgDiscovery with name := Option.some "My Browser!", profileBaseDir := Option.some "/b",
                      useUniqueProfile := Option.some (PyVal.bool true) }

/-- Helper: with a falsy profile flag every live process matches trivially. -/
theorem psutilMatches_of_not_truthy (flag : Option String) (live : LiveInv) (pid : Nat)
    (h : flagTruthy flag = false) : psutilProcessMatchesProfile flag live pid = true := by
  simp [psutilProcessMatchesProfile, h]

/-- Helper: the breadth-first collection loop never grows the collected list
beyond the limit. -/
theorem collectLoop_length_le (flag : Option String) (live : LiveInv) (snap : Option Snapshot)
    (limit : Nat) :
    ∀ (fuel : Nat) (queue collected : List Nat), collected.length ≤ limit →
      (collectLoop flag live snap limit fuel queue collected).length ≤ limit := by
  intro fuel
  induction fuel with
  | zero => intro queue collected h; simpa [collectLoop] using h
  | succ n ih =>
    intro queue collected h
    cases queue with
    | nil => simpa [collectLoop] using h
    | cons pid rest =>
      rw [collectLoop]
      cases hfind : live.find pid with
      | none =>
        simp only [hfind]
        split_ifs with h1 hmem hprof h3
        · exact h
        · exact ih rest collected h
        · exact ih rest collected h
        · simp only [List.length_append, List.length_cons, List.length_nil]; omega
        · exact ih rest _ (by simp only [List.length_append, List.length_cons,
            List.length_nil]; omega)
      | some i =>
        simp only [hfind]
        split_ifs with h1 hmem hprof h3 h4
        · exact h
        · exact ih rest collected h
        · exact ih rest collected h
        · simp only [List.length_append, List.length_cons, List.length_nil]; omega
        · exact ih rest _ (by simp only [List.length_append, List.length_cons,
            List.length_nil]; omega)
        · exact ih _ _ (by simp only [List.length_append, List.length_cons,
            List.length_nil]; omega)

/-- C5: the descendant-expansion step returns at most
`snapshot_descendant_limit` pids — the configured value defaults to 50 and is
clamped below by 1 — for every candidate set, configuration, profile flag,
snapshot and live table. -/
theorem descendant_expansion_capped (cfg : Config) (flag : Option String) (live : LiveInv)
    (snap : Option Snapshot) (rootPids : List Nat) :
    (collectDescendantPids cfg flag live snap rootPids).length ≤
      (max 1 (cfg.snapshotDescendantLimit.getD 50)).toNat := by
  rw [collectDescendantPids]
  by_cases h : rootPids = []
  · simp [h]
  · simp only [h, if_false]
    exact collectLoop_length_le _ _ _ _ _ _ _ (by simp)

/-- C2: the exit classifier marks every non-zero exit as a crash; a zero exit
with `min_uptime_for_crash = 0` as a normal exit; and with a positive
threshold a zero exit is a crash exactly when uptime reached the threshold. -/
theorem exit_classifier_spec (c : Int) (minUp uptime : Rat) :
    (c ≠ 0 → isCrash (Option.some c) minUp uptime = true) ∧
    (c = 0 → minUp = 0 → isCrash (Option.some c) minUp uptime = false) ∧
    (c = 0 → 0 < minUp → (isCrash (Option.some c) minUp uptime = true ↔ minUp ≤ uptime)) := by
  refine ⟨?_, ?_, ?_⟩
  · intro hc; simp [isCrash, hc]
  · intro hc hm; simp [isCrash, hc, hm]
  · intro hc hm
    have hne : ¬ (minUp = 0) := ne_of_gt hm
    simp [isCrash, hc, hne]

/-- Witness for the exit classifier: a non-zero exit, a zero exit with zero
threshold, and a zero exit against a positive threshold. -/
theorem exit_classifier_spec_witness :
    isCrash (Option.some 2) 10 1 = true ∧
    isCrash (Option.some 0) 0 99 = false ∧
    (isCrash (Option.some 0) 10 12 = true ↔ (10 : Rat) ≤ 12) :=
  ⟨(exit_classifier_spec 2 10 1).1 (by norm_num),
   (exit_classifier_spec 0 0 99).2.1 rfl rfl,
   (exit_classifier_spec 0 10 12).2.2 rfl (by norm_num)⟩

/-- C8: `stop()` is idempotent — a second call leaves the state of the first
call unchanged and kills nothing — and one call already clears `should_run`,
the direct-child handle, the tracked pids and the profile flag. -/
theorem stop_idempotent (st : SupState) (live : LiveInv) :
    (stopFn (stopFn st live).1 live).1 = (stopFn st live).1 ∧
    (stopFn (stopFn st live).1 live).2 = [] ∧
    (stopFn st live).1.shouldRun = false ∧
    (stopFn st live).1.process = Option.none ∧
    (stopFn st live).1.trackedPids = [] ∧
    (stopFn st live).1.profileFlag = Option.none :=
  ⟨rfl, rfl, rfl, rfl, rfl, rfl⟩

/-- C4: descendant discovery's empty cases — an empty snapshot diff always
yields an empty tracked set; an empty Step-2 candidate set yields an empty
tracked set when the profile flag is set, and falls back to the raw diff as
the candidate set when it is not. -/
theorem tracking_empty_cases (cfg : Config) (flag : Option String) (live : LiveInv)
    (before after : Snapshot) (parentPid : Option Nat) :
    (calculateNewPids before after = [] →
      buildTrackingPids cfg flag live before after parentPid = []) ∧
    (filterCandidateProcesses cfg flag live (calculateNewPids before after) after parentPid = [] →
      flagTruthy flag = true →
      buildTrackingPids cfg flag live before after parentPid = []) ∧
    (filterCandidateProcesses cfg flag live (calculateNewPids before after) after parentPid = [] →
      flagTruthy flag = false →
      buildTrackingPids cfg flag live before after parentPid =
        finishTracking cfg flag live after (calculateNewPids before after)) := by
  refine ⟨?_, ?_, ?_⟩
  · intro h
    simp [buildTrackingPids, h]
  · intro hfilt hflag
    by_cases hnew : calculateNewPids before after = []
    · simp [buildTrackingPids, hnew]
    · simp [buildTrackingPids, hnew, hfilt, hflag]
  · intro hfilt hflag
    by_cases hnew : calculateNewPids before after = []
    · simp [buildTrackingPids, hnew, finishTracking, collectDescendantPids, sortNat]
    · simp [buildTrackingPids, hnew, hfilt, hflag]

/-- Witness for the empty cases of descendant discovery: an empty diff, a
profile-filtered diff with the flag set, and a heuristics-filtered diff with
the flag unset. -/
theorem tracking_empty_cases_witness :
    buildTrackingPids cfgDiscovery Option.none liveEmpty snapOne snapOne (Option.some 1) = [] ∧
    buildTrackingPids cfgDiscovery (Option.some "--user-data-dir=/p") liveEmpty [] afterNoMatch
      (Option.some 1) = [] ∧
    buildTrackingPids cfgDiscovery Option.none liveEmpty [] afterStray (Option.some 1) =
      finishTracking cfgDiscovery Option.none liveEmpty afterStray
        (calculateNewPids [] afterStray) :=
  ⟨(tracking_empty_cases cfgDiscovery Option.none liveEmpty snapOne snapOne
      (Option.some 1)).1 (by decide),
   (tracking_empty_cases cfgDiscovery (Option.some "--user-data-dir=/p") liveEmpty []
      afterNoMatch (Option.some 1)).2.1 (by decide) (by decide),
   (tracking_empty_cases cfgDiscovery Option.none liveEmpty [] afterStray
      (Option.some 1)).2.2 (by decide) (by decide)⟩

/-- C6 counterexample: with identical before snapshot, after snapshot, direct
child pid and configuration, two runs against different live process tables
produce different tracked sets — the live table the expansion walks is a
further input of descendant discovery. -/
theorem discovery_live_dependence_counterexample :
    buildTrackingPids cfgDiscovery Option.none liveDiscoveryA [] afterDiscovery
      (Option.some 1) ≠
    buildTrackingPids cfgDiscovery Option.none liveDiscoveryB [] afterDiscovery
      (Option.some 1) := by decide

/-- C6 amended: descendant discovery is a deterministic function of the before
snapshot, the after snapshot, the direct child pid, the configuration (with
its profile flag) and the live process table: runs agreeing on all of these
produce the same tracked set. -/
theorem discovery_deterministic_amended (cfg : Config) (flag : Option String)
    (before after : Snapshot) (parentPid : Option Nat) (live1 live2 : LiveInv)
    (h : live1 = live2) :
    buildTrackingPids cfg flag live1 before after parentPid =
      buildTrackingPids cfg flag live2 before after parentPid := by
  rw [h]

/-- Witness for amended determinism at a concrete run. -/
theorem discovery_deterministic_amended_witness :
    buildTrackingPids cfgDiscovery Option.none liveDiscoveryA [] afterDiscovery
      (Option.some 1) =
    buildTrackingPids cfgDiscovery Option.none liveDiscoveryA [] afterDiscovery
      (Option.some 1) :=
  discovery_deterministic_amended cfgDiscovery Option.none [] afterDiscovery
    (Option.some 1) liveDiscoveryA liveDiscoveryA rfl

/-- C9 counterexample: for the service name `!!!` the slug described by the
claim is empty, and the launcher does not use `<base>/<slug(name)>` — it
substitutes the literal `service` for the empty slug. -/
theorem profile_slug_empty_counterexample :
    buildProfileArgs cfgSlugEmpty "/usr/bin/app" [] "/h" true =
      ["--user-data-dir=/b/service"] ∧
    safeSlug "!!!" = "" ∧
    buildProfileArgs cfgSlugEmpty "/usr/bin/app" [] "/h" true ≠
      ["--user-data-dir=" ++ ("/b" ++ "/" ++ safeSlug "!!!")] := by decide

/-- C9 amended: with unique profiles on, a non-empty name and base directory,
and no existing `--user-data-dir` argument, the launcher prepends
`--user-data-dir=<base>/<slug(name)>` where the slug lowercases the name,
replaces each maximal run outside `[a-z0-9._-]` with a single dash and strips
leading and trailing `-_.`, with the literal `service` substituted when the
slug comes out empty; and when a `--user-data-dir` argument is already
present no profile argument is added. -/
theorem profile_args_amended (cfg : Config) (cmd home base name : String)
    (args : List String)
    (h1 : cfg.useUniqueProfile = Option.some (PyVal.bool true))
    (h2 : cfg.name = Option.some name) (hn : name ≠ "")
    (h3 : cfg.profileBaseDir = Option.some base) (hb : base ≠ "")
    (h4 : args.any (fun a => startsWithStr "--user-data-dir" a) = false) :
    buildProfileArgs cfg cmd args home true =
      ["--user-data-dir=" ++
        (base ++ "/" ++ (if safeSlug name = "" then "service" else safeSlug name))] ∧
    ∀ args2 : List String, args2.any (fun a => startsWithStr "--user-data-dir" a) = true →
      buildProfileArgs cfg cmd args2 home true = [] := by
  constructor
  · simp [buildProfileArgs, h1, h2, h3, h4, hn, hb, PyVal.truthy]
  · intro args2 hp
    simp [buildProfileArgs, h1, hp, PyVal.truthy]

/-- Witness for the amended profile-argument derivation at a concrete
configuration. -/
theorem profile_args_amended_witness :
    buildProfileArgs cfgProfileW "/usr/bin/app" [] "/h" true =
      ["--user-data-dir=" ++
        ("/b" ++ "/" ++
          (if safeSlug "My Browser!" = "" then "service" else safeSlug "My Browser!"))] ∧
    buildProfileArgs cfgProfileW "/usr/bin/app" ["--user-data-dir=/x"] "/h" true = [] :=
  ⟨(profile_args_amended cfgProfileW "/usr/bin/app" "/h" "/b" "My Browser!" [] rfl rfl
      (by decide) rfl (by decide) (by decide)).1,
   (profile_args_amended cfgProfileW "/usr/bin/app" "/h" "/b" "My Browser!" [] rfl rfl
      (by decide) rfl (by decide) (by decide)).2 ["--user-data-dir=/x"] (by decide)⟩

/-- C10: a `ServiceConfig` without the `use_unique_profile` key behaves as if
it were true — the constructor writes `True` into the absent key, the launcher
builds the same profile arguments for an absent key as for an explicit
`True`, with the key absent (and no pre-existing `--user-data-dir` argument
and a successful directory creation) a profile argument is injected, and a
suppressed injection under those side conditions can only come from an
explicitly present, non-`None`, falsy value. -/
theorem unique_profile_default (cfg : Config) (cmd home : String) (args : List String)
    (mkOk : Bool) :
    initUseUniqueProfile Option.none = Option.some (PyVal.bool true) ∧
    buildProfileArgs { cfg with useUniqueProfile := Option.none } cmd args home mkOk =
      buildProfileArgs { cfg with useUniqueProfile := Option.some (PyVal.bool true) }
        cmd args home mkOk ∧
    (cfg.useUniqueProfile = Option.none →
      args.any (fun a => startsWithStr "--user-data-dir" a) = false →
      mkOk = true →
      buildProfileArgs cfg cmd args home mkOk ≠ []) ∧
    (args.any (fun a => startsWithStr "--user-data-dir" a) = false →
      mkOk = true →
      buildProfileArgs cfg cmd args home mkOk = [] →
      ∃ v, cfg.useUniqueProfile = Option.some v ∧ v.truthy = false ∧ v ≠ PyVal.none) := by
  refine ⟨rfl, rfl, ?_, ?_⟩
  · intro h1 h2 h3
    subst h3
    simp [buildProfileArgs, h1, h2]
  · intro h2 h3 h0
    subst h3
    cases hv : cfg.useUniqueProfile with
    | none => rw [buildProfileArgs] at h0; simp [hv, h2] at h0
    | some v =>
      cases v with
      | none => rw [buildProfileArgs] at h0; simp [hv, h2] at h0
      | bool b =>
        cases b with
        | false => exact ⟨PyVal.bool false, rfl, rfl, by decide⟩
        | true => rw [buildProfileArgs] at h0; simp [hv, h2, PyVal.truthy] at h0
      | int n =>
        by_cases hz : n = 0
        · subst hz; exact ⟨PyVal.int 0, rfl, rfl, by decide⟩
        · rw [buildProfileArgs] at h0; simp [hv, h2, PyVal.truthy, hz] at h0
      | str s =>
        by_cases hz : s = ""
        · subst hz; exact ⟨PyVal.str "", rfl, rfl, by decide⟩
        · rw [buildProfileArgs] at h0; simp [hv, h2, PyVal.truthy, hz] at h0

/-- Witness for the `use_unique_profile` defaulting at a concrete
configuration with the key absent. -/
theorem unique_profile_default_witness :
    initUseUniqueProfile Option.none = Option.some (PyVal.bool true) ∧
    buildProfileArgs cfgDiscovery "/usr/bin/app" [] "/h" true ≠ [] :=
  ⟨(unique_profile_default cfgDiscovery "/usr/bin/app" "/h" [] true).1,
   (unique_profile_default cfgDiscovery "/usr/bin/app" "/h" [] true).2.2.1 rfl
     (by decide) rfl⟩

/-- C1 counterexample: with the profile flag set, the group terminator kills
pid 2 — a descendant of the direct child whose command line does not contain
the flag — because the direct-child branch of `_kill_process` applies no
profile filtering. -/
theorem kill_skips_profile_counterexample :
    flagTruthy exStKill.profileFlag = true ∧
    (2 ∈ (killProcess exStKill exLiveKill).2) ∧
    cmdlineContainsProfile exStKill.profileFlag
      ((exLiveKill.find 2).getD ⟨"", "", [], Option.none⟩).cmdline = false := by decide

/-- C1 amended: the kills of `_kill_process` split into the direct-child
branch and the tracked-pid branch; every pid killed through the tracked-pid
branch matches the profile filter (trivially so when no flag is set), while
the direct-child branch kills the direct child and all its recursive
descendants without consulting the filter. -/
theorem kill_tracked_profile_safe (st : SupState) (live : LiveInv) :
    (killProcess st live).2 = directKillList st live ++ trackedKillList st live ∧
    (trackedKillList st live).all
      (fun p => psutilProcessMatchesProfile st.profileFlag live p) = true := by
  refine ⟨rfl, ?_⟩
  rw [List.all_eq_true]
  intro p hp
  by_cases hft : flagTruthy st.profileFlag
  case neg =>
    simp only [Bool.not_eq_true] at hft
    exact psutilMatches_of_not_truthy _ _ _ hft
  case pos =>
    unfold trackedKillList at hp
    rw [List.mem_flatten] at hp
    obtain ⟨l, hl, hpl⟩ := hp
    rw [List.mem_map] at hl
    obtain ⟨pid, _, rfl⟩ := hl
    cases hfind : live.find pid with
    | none => rw [hfind] at hpl; simp at hpl
    | some i =>
      rw [hfind] at hpl
      by_cases hskip : psutilProcessMatchesProfile st.profileFlag live pid
      · simp only [hskip, Bool.not_true, Bool.and_false, Bool.false_eq_true,
          if_false] at hpl
        rcases List.mem_append.mp hpl with hmem | hmem
        · have := List.of_mem_filter hmem
          simp only [hft, Bool.true_and, Bool.not_eq_eq_eq_not, Bool.not_false] at this
          simpa using this
        · simp only [List.mem_singleton] at hmem
          subst hmem
          exact hskip
      · simp only [Bool.not_eq_true] at hskip
        simp [hft, hskip] at hpl

/-- C7 counterexample: the direct child (pid 5) has exited (`poll` returned 0)
while the still-set handle hides the live, profile-matching tracked pid 7:
`_is_process_alive` reports the group dead although the claim's
characterization — direct child running or some tracked pid alive and
matching — holds. -/
theorem group_alive_counterexample :
    (isProcessAliveFn exStAlive exLiveAlive (Option.some 0)).1 = false ∧
    (exLiveAlive.pidExists 5 && (Option.some (0 : Int)).isNone) = false ∧
    exStAlive.trackedPids.any (fun p =>
      exLiveAlive.pidExists p &&
        psutilProcessMatchesProfile exStAlive.profileFlag exLiveAlive p) = true := by decide

/-- C7 amended: the group counts as alive exactly when the direct-child handle
is present and that child is running, or the handle is absent and some tracked
pid is alive and profile-matching; in particular with no handle and no tracked
pids the check returns false. -/
theorem group_alive_amended (st : SupState) (live : LiveInv) (poll : Option Int) :
    ((isProcessAliveFn st live poll).1 = true ↔
      ((∃ pid, st.process = Option.some pid ∧ live.pidExists pid = true ∧
          poll = Option.none) ∨
        (st.process = Option.none ∧
          ∃ p, p ∈ st.trackedPids ∧ live.pidExists p = true ∧
            psutilProcessMatchesProfile st.profileFlag live p = true))) ∧
    (st.process = Option.none → st.trackedPids = [] →
      (isProcessAliveFn st live poll).1 = false) := by
  constructor
  · cases hp : st.process with
    | some pid =>
      simp [isProcessAliveFn, hp, Option.isNone_iff_eq_none]
    | none =>
      by_cases ht : st.trackedPids = []
      · simp [isProcessAliveFn, hp, ht]
      · simp only [isProcessAliveFn, hp, ht, if_false, decide_eq_true_eq]
        constructor
        · intro hne
          rcases List.exists_mem_of_ne_nil _ hne with ⟨x, hx⟩
          have hmem := List.mem_filter.mp hx
          refine Or.inr ⟨trivial, x, hmem.1, ?_⟩
          have := hmem.2
          simp only [Bool.and_eq_true] at this
          exact this
        · rintro (⟨pid, hpid, _⟩ | ⟨_, p, hmem, hal, hmatch⟩)
          · exact absurd hpid (by simp)
          · intro hcon
            have : p ∈ st.trackedPids.filter (fun q =>
                live.pidExists q && psutilProcessMatchesProfile st.profileFlag live q) :=
              List.mem_filter.mpr ⟨hmem, by simp [hal, hmatch]⟩
            rw [hcon] at this
            simp at this
  · intro h1 h2
    simp [isProcessAliveFn, h1, h2]

/-- Witness for the amended liveness characterization: with no handle and no
tracked pids the group is not alive. -/
theorem group_alive_amended_witness :
    (isProcessAliveFn exStAliveNone exLiveAlive (Option.some 0)).1 = false :=
  (group_alive_amended exStAliveNone exLiveAlive (Option.some 0)).2 rfl rfl

/-- Helper: the start block never touches the crash counter. -/
theorem startService_crashCount (cfg : Config) (st : SupState) (env : MonitorEnv) :
    (startService cfg st env).crashCount = st.crashCount := by
  unfold startService setProfileContext
  cases env.spawnPid with
  | none => cases cfg.trackChildProcesses <;> simp
  | some pid =>
    cases cfg.trackChildProcesses <;> cases hsp : env.spawnProfilePath <;>
      simp <;> split <;> simp

/-- C3: across one monitoring-loop iteration the crash counter is incremented
by exactly one when the exit is classified as a crash and unchanged otherwise
(in particular on a normal exit), so it is monotonically non-decreasing; a
`stop()` call leaves it unchanged as well. -/
theorem crash_count_step_exact (cfg : Config) (st : SupState) (env : MonitorEnv)
    (live2 : LiveInv) :
    (monitorStep cfg st env).crashCount =
      st.crashCount + (if crashClassified cfg st env = true then 1 else 0) ∧
    st.crashCount ≤ (monitorStep cfg st env).crashCount ∧
    (stopFn st live2).1.crashCount = st.crashCount := by
  have hmain : (monitorStep cfg st env).crashCount =
      st.crashCount + (if crashClassified cfg st env = true then 1 else 0) := by
    unfold monitorStep crashClassified
    by_cases hal : (isProcessAliveFn st env.live env.poll).1
    · simp [hal]
    · simp only [Bool.not_eq_true] at hal
      cases hp : st.process with
      | none =>
        simp [hal, hp, startService_crashCount]
      | some pid =>
        cases hl : st.lastStartTime with
        | none => simp [hal, hp, hl, startService_crashCount]
        | some t =>
          by_cases hc : isCrash env.poll cfg.minUptimeForCrash env.uptime
          · by_cases har : cfg.autoRestart
            · simp [hal, hp, hl, hc, har, startService_crashCount, logCrashEvent]
            · simp only [Bool.not_eq_true] at har
              simp [hal, hp, hl, hc, har, logCrashEvent]
          · simp only [Bool.not_eq_true] at hc
            cases htc : cfg.trackChildProcesses
            · simp [hal, hp, hl, hc, htc]
            · simp [hal, hp, hl, hc, htc]
              rw [apply_ite SupState.crashCount]
              simp
  refine ⟨hmain, ?_, rfl⟩
  rw [hmain]
  split <;> omega
